import Mathlib

/-!
Verification of the pixel-issue-detection core against its specification.

The definitions below are a shallow embedding of the Python sources:
  * `src/pixel_notification_monitor.py` — text normalizer
    (`extract_text_from_rich_format`) and the rule engine
    (`is_pixel_related_ticket`);
  * `src/enhanced_pixel_monitor.py` — the rule-confidence table
    (`estimate_rule_confidence`);
  * `src/archive/learning_system.py` — the feedback store, training-data
    materializer, feature extractor, fusion policy (`hybrid_detection`,
    `predict_ml`) and the pattern analyzer (`analyze_patterns`).

Python strings are `String` (a list of characters), Python floats are `ℚ`
(the constants involved are exact decimals), the SQLite tables are Lean
lists of rows, and the SQLite autoincrement id is a successively allocated
`Nat`.  Python `in` on strings is naive substring containment, embedded
executably below.
-/

/-! ## Python string primitives -/

/-- `listStartsWith needle hay`: `hay` begins with `needle` (character lists). -/
def listStartsWith : List Char → List Char → Bool
  | [], _ => true
  | _ :: _, [] => false
  | n :: ns, h :: hs => n == h && listStartsWith ns hs

/-- Substring containment on character lists; `containsSub n h` embeds
Python `n in h` for strings (an empty needle is contained in anything). -/
def containsSub (needle : List Char) : List Char → Bool
  | [] => listStartsWith needle []
  | h :: hs => listStartsWith needle (h :: hs) || containsSub needle hs

/-- Python `needle in hay` on strings. -/
def pyIn (needle hay : String) : Bool := containsSub needle.data hay.data

/-- Python `str.lower()` (ASCII case folding, as in the source's inputs). -/
def pyLower (s : String) : String := String.mk (s.data.map Char.toLower)

/-- Worker for `pySplit`: consumes the text, accumulating the current word
in reverse. -/
def pySplitGo : List Char → List Char → List String
  | [], cur => if cur.isEmpty then [] else [String.mk cur.reverse]
  | c :: rest, cur =>
    if c.isWhitespace then
      if cur.isEmpty then pySplitGo rest []
      else String.mk cur.reverse :: pySplitGo rest []
    else pySplitGo rest (c :: cur)

/-- Python `str.split()` with no argument: split on whitespace runs,
dropping empty tokens. -/
def pySplit (s : String) : List String := pySplitGo s.data []

/-- Python `' '.join(parts)`. -/
def joinSpace : List String → String
  | [] => ""
  | [x] => x
  | x :: y :: rest => x ++ " " ++ joinSpace (y :: rest)

/-! ## Text Normalizer (`extract_text_from_rich_format`)

Jira rich-text bodies are arbitrarily nested dictionaries and lists.  The
source function inspects, on a dictionary, only the keys `content` (a list
of child nodes) and `text` (a string leaf); any other Python value is
rendered with `str(...)`, whose result we carry as data in the `other`
constructor. -/

mutual
inductive Rich where
  | str (s : String)
  | dict (content : Option RichL) (text : Option String)
  | list (items : RichL)
  | other (rendered : String)
inductive RichL where
  | nil
  | cons (head : Rich) (tail : RichL)
end

mutual
/-- `extract_text_from_rich_format` from `pixel_notification_monitor.py`. -/
def extract_text_from_rich_format : Rich → String
  | .str s => s
  | .dict content txt =>
    match content with
    | some items => joinSpace (extract_parts items)
    | none =>
      match txt with
      | some s => joinSpace [s]
      | none => joinSpace []
  | .list items => joinSpace (extract_parts items)
  | .other rendered => rendered
/-- The recursive `text_parts` accumulation over a list of nodes. -/
def extract_parts : RichL → List String
  | .nil => []
  | .cons x xs => extract_text_from_rich_format x :: extract_parts xs
end

mutual
/-- The text leaves of a rich-text tree, in document order (on a
dictionary carrying both keys, the source reads only `content`). -/
def flatLeaves : Rich → List String
  | .str s => [s]
  | .dict content txt =>
    match content with
    | some items => flatLeavesL items
    | none =>
      match txt with
      | some s => [s]
      | none => []
  | .list items => flatLeavesL items
  | .other rendered => [rendered]
/-- `flatLeaves` over a list of nodes. -/
def flatLeavesL : RichL → List String
  | .nil => []
  | .cons x xs => flatLeaves x ++ flatLeavesL xs
end

/-- The characters of a string other than the space separators inserted by
`joinSpace`. -/
def dropSpaces (s : String) : List Char := s.data.filter (fun c => !(c == ' '))

/-! ## Rule Engine (`is_pixel_related_ticket`)

The `description` argument of `is_pixel_related_ticket` may be a plain
string, a rich-text dictionary, or any other Python value (rendered with
`str(...)`); `Desc` mirrors exactly the three branches of the source's
description handling, together with the Python truthiness test guarding
them. -/

inductive Desc where
  | str (s : String)
  | doc (content : Option RichL) (text : Option String)
  | other (rendered : String) (truthy : Bool)

/-- Python truthiness of the description value (`if description:`).  An
empty string, an empty dictionary, `None`, `0` … are falsy; the modelled
dictionary keys stand for the whole dictionary. -/
def descTruthy : Desc → Bool
  | .str s => !(s == "")
  | .doc content txt => content.isSome || txt.isSome
  | .other _ truthy => truthy

/-- The `desc_text` computed by `is_pixel_related_ticket`: rich-text
dictionaries are normalized recursively, strings pass through, any other
value is rendered with `str(...)`; a falsy description contributes `""`. -/
def descText (d : Desc) : String :=
  if descTruthy d then
    match d with
    | .str s => s
    | .doc content txt => extract_text_from_rich_format (.dict content txt)
    | .other rendered _ => rendered
  else ""

/-- The fixed exclusion list of the rule engine (list order matters). -/
def exclusions : List String :=
  ["acr", "delivery report", "access request", "grant access",
   "monitoring alert", "o&o monitoring", "user sync", "sync pixel",
   "planning module", "linear ads"]

/-- The fixed high-confidence phrase list of the rule engine. -/
def high_confidence_keywords : List String :=
  ["pixel validation", "pixel firing", "pixel not firing", "conversion pixel",
   "tracking pixel", "universal tag", "piggyback", "appending a pixel",
   "append pixel"]

/-- The context words scanned when the primary keyword `pixel` is present. -/
def pixel_contexts : List String :=
  ["confirmation", "conversion", "firing", "tracking", "validation",
   "website", "page", "code", "tag", "implement", "install", "setup",
   "not working", "0 conversions", "troubleshoot"]

/-- Topic keywords of the step-4 combination pattern. -/
def tracking_keywords : List String := ["tracking", "tag", "javascript", "js"]

/-- Action keywords of the step-4 combination pattern. -/
def action_keywords : List String :=
  ["implement", "install", "setup", "add", "place", "deploy"]

/-- Web-context terms of the step-5 combination pattern. -/
def web_terms : List String := ["web", "website", "page", "tag"]

/-- The combined lowercased text `(summary + ' ' + desc_text).lower()`. -/
def combinedText (summary : String) (d : Desc) : String :=
  pyLower (summary ++ " " ++ descText d)

/-- `is_pixel_related_ticket` from `pixel_notification_monitor.py`:
ordered, first match wins. -/
def is_pixel_related_ticket (summary : String) (description : Desc) : Bool × String :=
  if summary = "" then (false, "no_summary")
  else
    let text := combinedText summary description
    match exclusions.find? (fun e => pyIn e text) with
    | some e => (false, "excluded:" ++ e)
    | none =>
      match high_confidence_keywords.find? (fun k => pyIn k text) with
      | some k => (true, "high:" ++ k)
      | none =>
        match (if pyIn "pixel" text then pixel_contexts.find? (fun c => pyIn c text) else none) with
        | some c => (true, "pixel_context:" ++ c)
        | none =>
          if tracking_keywords.any (fun k => pyIn k text) &&
             action_keywords.any (fun k => pyIn k text) then
            (true, "medium:tracking_action")
          else if pyIn "conversion" text && web_terms.any (fun w => pyIn w text) then
            (true, "medium:conversion_web")
          else (false, "no_match")

/-! ## Rule-confidence table (`EnhancedPixelMonitor.estimate_rule_confidence`) -/

/-- The `confidence_map` dictionary of `enhanced_pixel_monitor.py`,
embedded as an association list (its keys are pairwise distinct). -/
def confidence_map : List (String × ℚ) :=
  [("high:pixel_validation", 0.95),
   ("high:pixel_not_firing", 0.95),
   ("high:conversion_pixel", 0.90),
   ("high:tracking_pixel", 0.90),
   ("high:universal_tag", 0.90),
   ("high:append_pixel", 0.85),
   ("medium:tracking_action", 0.60),
   ("medium:conversion_web", 0.70),
   ("pixel_context:firing", 0.85),
   ("pixel_context:validation", 0.85),
   ("pixel_context:setup", 0.75),
   ("pixel_context:conversion", 0.80),
   ("no_match", 0.0)]

/-- `estimate_rule_confidence`: `confidence_map.get(rule_reason, 0.5)`. -/
def estimate_rule_confidence (rule_reason : String) : ℚ :=
  match confidence_map.find? (fun p => p.1 == rule_reason) with
  | some p => p.2
  | none => 0.5

/-! ## Feature Extractor (`PixelDetectionLearningSystem.extract_features`) -/

/-- Contexts counted by `count_pixel_contexts`. -/
def feature_pixel_contexts : List String :=
  ["firing", "load", "implement", "setup", "troubleshoot", "validate", "test"]

/-- Terms counted by `count_technical_terms`. -/
def technical_terms : List String :=
  ["javascript", "js", "tag", "code", "snippet", "implementation", "gtm"]

/-- Exclusion indicators counted by `count_exclusion_indicators`. -/
def exclusion_indicators : List String :=
  ["acr", "delivery report", "access request", "user sync",
   "planning module", "linear ads"]

/-- Action words counted by `count_action_words`. -/
def feature_action_words : List String :=
  ["implement", "install", "setup", "add", "place", "deploy", "configure"]

/-- `count_pixel_contexts`. -/
def count_pixel_contexts (text : String) : Nat :=
  if pyIn "pixel" text then
    feature_pixel_contexts.countP (fun c => pyIn c text)
  else 0

/-- `count_technical_terms`. -/
def count_technical_terms (text : String) : Nat :=
  technical_terms.countP (fun t => pyIn t text)

/-- `count_exclusion_indicators`. -/
def count_exclusion_indicators (text : String) : Nat :=
  exclusion_indicators.countP (fun e => pyIn e text)

/-- `count_action_words`. -/
def count_action_words (text : String) : Nat :=
  feature_action_words.countP (fun a => pyIn a text)

/-- The fixed-schema feature record built by `extract_features`. -/
structure Features where
  length : Nat
  word_count : Nat
  has_pixel : Bool
  has_tracking : Bool
  has_conversion : Bool
  has_validation : Bool
  has_firing : Bool
  pixel_with_context : Nat
  technical_terms : Nat
  has_exclusions : Nat
  action_words : Nat
  dsp_related : Bool
  web_related : Bool
  campaign_related : Bool
deriving DecidableEq, Repr

/-- `extract_features` from `learning_system.py`. -/
def extract_features (summary : String) (description : String) : Features :=
  let text := pyLower (summary ++ " " ++ description)
  { length := text.length
    word_count := (pySplit text).length
    has_pixel := pyIn "pixel" text
    has_tracking := tracking_keywords.any (fun w => pyIn w text)
    has_conversion := pyIn "conversion" text
    has_validation := pyIn "validation" text
    has_firing := pyIn "firing" text
    pixel_with_context := count_pixel_contexts text
    technical_terms := count_technical_terms text
    has_exclusions := count_exclusion_indicators text
    action_words := count_action_words text
    dsp_related := pyIn "dsp" text || pyIn "creative" text
    web_related := ["web", "website", "page"].any (fun w => pyIn w text)
    campaign_related := pyIn "campaign" text }

/-! ## Feedback Store and Training Data Materializer

The SQLite tables of `learning_system.py` are embedded as lists of rows in
rowid order; the autoincrement id is a successively allocated `Nat`.  The
`feedback` table has no uniqueness constraint on `ticket_id` (only the
autoincrement primary key), while `training_data.ticket_id` is declared
`UNIQUE`, so `INSERT OR REPLACE` replaces there. -/

/-- The `CHECK(user_feedback IN (...))` constraint of the feedback table. -/
inductive Label where
  | true_positive
  | false_positive
  | false_negative
deriving DecidableEq, Repr

/-- A row of the `feedback` table. -/
structure FeedbackRow where
  rowid : Nat
  ticket_id : String
  summary : String
  description : String
  detection_reason : String
  user_feedback : Label
  confidence_score : ℚ
  processed : Bool
deriving DecidableEq, Repr

/-- A row of the `training_data` table. -/
structure TrainingRow where
  ticket_id : String
  summary : String
  description : String
  is_pixel_related : Bool
  features : Features
deriving DecidableEq, Repr

/-- The persistent state of the learning system's store. -/
structure DB where
  feedback : List FeedbackRow
  nextId : Nat
  training : List TrainingRow
deriving DecidableEq, Repr

/-- The freshly initialized store (`init_database` creates empty tables). -/
def initDB : DB := { feedback := [], nextId := 1, training := [] }

/-- `INSERT OR REPLACE INTO training_data` with `ticket_id` `UNIQUE`:
the conflicting row (if any) is deleted and the new row appended. -/
def upsertTraining (t : TrainingRow) (rows : List TrainingRow) : List TrainingRow :=
  rows.filter (fun r => !(r.ticket_id == t.ticket_id)) ++ [t]

/-- `UPDATE feedback SET processed = TRUE WHERE id = ?`. -/
def markProcessed (i : Nat) (rows : List FeedbackRow) : List FeedbackRow :=
  rows.map (fun r => if r.rowid = i then { r with processed := true } else r)

/-- The training example derived from one feedback row
(`is_pixel_related = user_feedback == 'true_positive'`). -/
def toTrainingRow (r : FeedbackRow) : TrainingRow :=
  { ticket_id := r.ticket_id
    summary := r.summary
    description := r.description
    is_pixel_related := decide (r.user_feedback = Label.true_positive)
    features := extract_features r.summary r.description }

/-- One iteration of the materialization loop: upsert the training example
and mark the source feedback row processed. -/
def materializeRow (acc : DB) (r : FeedbackRow) : DB :=
  { acc with
    training := upsertTraining (toTrainingRow r) acc.training
    feedback := markProcessed r.rowid acc.feedback }

/-- `process_feedback_to_training_data`: loop over the rows with
`processed = FALSE`, in rowid order. -/
def process_feedback_to_training_data (db : DB) : DB :=
  (db.feedback.filter (fun r => !r.processed)).foldl materializeRow db

/-- `record_feedback`: the `INSERT OR REPLACE INTO feedback` never meets a
uniqueness conflict (no unique constraint covers the inserted columns), so
it appends a fresh row; then materialization runs automatically. -/
def record_feedback (db : DB) (ticket_id summary description detection_reason : String)
    (user_feedback : Label) (confidence_score : ℚ) : DB :=
  process_feedback_to_training_data
    { db with
      feedback := db.feedback ++
        [{ rowid := db.nextId
           ticket_id := ticket_id
           summary := summary
           description := description
           detection_reason := detection_reason
           user_feedback := user_feedback
           confidence_score := confidence_score
           processed := false }]
      nextId := db.nextId + 1 }

/-! ## Statistical Model and Fusion Policy (`predict_ml`, `hybrid_detection`)

The fitted model plus its vectorizer is abstracted as a prediction
function; `none` is the "no model trained yet" state of
`load_or_create_model`. -/

/-- A loaded ModelArtifact: classifier and vectorizer as one unit. -/
structure MLModel where
  predict : String → String → Bool × ℚ

/-- `predict_ml`: `(False, 0.0)` when no model is loaded. -/
def predict_ml (model : Option MLModel) (summary description : String) : Bool × ℚ :=
  match model with
  | none => (false, 0)
  | some m => m.predict summary description

/-- `hybrid_detection` from `learning_system.py`: returns the final
verdict, the combined score and the method tag of the analysis dict. -/
def hybrid_detection (model : Option MLModel) (summary description : String)
    (rule_based_result : Bool) (rule_confidence : ℚ) : Bool × ℚ × String :=
  let mlr := predict_ml model summary description
  match model with
  | some _ =>
    let rule_weight : ℚ := if mlr.2 > 0.8 then 0.4 else 0.6
    let ml_weight : ℚ := if mlr.2 > 0.8 then 0.6 else 0.4
    let combined_score := rule_confidence * rule_weight + mlr.2 * ml_weight
    (decide (combined_score > 0.5), combined_score, "hybrid")
  | none => (rule_based_result, rule_confidence, "rule_based_only")

/-! ## Pattern Analyzer (`analyze_patterns`)

`collections.Counter` keeps keys in first-insertion order, and
`most_common` sorts by count descending with a stable sort, so ties keep
first-occurrence order; both are embedded below. -/

/-- One `Counter` update: bump an existing key or append a fresh one. -/
def bump (acc : List (String × Nat)) (t : String) : List (String × Nat) :=
  if acc.any (fun p => p.1 == t) then
    acc.map (fun p => if p.1 == t then (p.1, p.2 + 1) else p)
  else acc ++ [(t, 1)]

/-- `Counter(tokens)`: (token, count) pairs in first-occurrence order. -/
def tokenCounts (tokens : List String) : List (String × Nat) :=
  tokens.foldl bump []

/-- Stable insertion keeping earlier elements before equal counts. -/
def insertDesc (p : String × Nat) : List (String × Nat) → List (String × Nat)
  | [] => [p]
  | q :: rest => if q.2 ≤ p.2 then p :: q :: rest else q :: insertDesc p rest

/-- Stable sort by count, descending. -/
def sortDesc : List (String × Nat) → List (String × Nat)
  | [] => []
  | p :: rest => insertDesc p (sortDesc rest)

/-- `Counter.most_common(n)`. -/
def most_common (n : Nat) (counts : List (String × Nat)) : List (String × Nat) :=
  (sortDesc counts).take n

/-- The whitespace tokens of all feedback rows carrying the given label,
texts in row order (`(summary + " " + (description or "")).lower().split()`). -/
def labelTokens (lbl : Label) (db : DB) : List String :=
  ((db.feedback.filter (fun r => r.user_feedback == lbl)).map
    (fun r => pySplit (pyLower (r.summary ++ " " ++ r.description)))).flatten

/-- Tokens of the false-positive feedback texts (`fp_patterns`). -/
def fpTokens (db : DB) : List String := labelTokens Label.false_positive db

/-- Tokens of the false-negative feedback texts (`fn_patterns`). -/
def fnTokens (db : DB) : List String := labelTokens Label.false_negative db

/-- The analysis dict returned by `analyze_patterns`. -/
structure PatternAnalysis where
  false_positive_count : Nat
  false_negative_count : Nat
  common_fp_patterns : List (String × Nat)
  common_fn_patterns : List (String × Nat)
  suggested_exclusions : List String
  suggested_keywords : List String
deriving DecidableEq, Repr

/-- `analyze_patterns` from `learning_system.py`. -/
def analyze_patterns (db : DB) : PatternAnalysis :=
  let fp_counter := tokenCounts (fpTokens db)
  let fn_counter := tokenCounts (fnTokens db)
  { false_positive_count :=
      (db.feedback.filter (fun r => r.user_feedback == Label.false_positive)).length
    false_negative_count :=
      (db.feedback.filter (fun r => r.user_feedback == Label.false_negative)).length
    common_fp_patterns := most_common 10 fp_counter
    common_fn_patterns := most_common 10 fn_counter
    suggested_exclusions :=
      ((most_common 5 fp_counter).filter (fun p => 2 ≤ p.2)).map Prod.fst
    suggested_keywords :=
      ((most_common 5 fn_counter).filter (fun p => 2 ≤ p.2)).map Prod.fst }

/-! ## Concrete stores used in counterexamples and scenario instances -/

/-- A store holding two false-positive feedbacks whose texts share six
distinct tokens, each thus occurring twice. -/
def dbSixTokens : DB :=
  { feedback :=
      [{ rowid := 1, ticket_id := "T1", summary := "a b c d e f", description := "",
         detection_reason := "r", user_feedback := Label.false_positive,
         confidence_score := 0, processed := true },
       { rowid := 2, ticket_id := "T2", summary := "a b c d e f", description := "",
         detection_reason := "r", user_feedback := Label.false_positive,
         confidence_score := 0, processed := true }]
    nextId := 3
    training := [] }

/-- A store holding a single not-yet-materialized feedback row. -/
def dbOneUnprocessed : DB :=
  { feedback :=
      [{ rowid := 1, ticket_id := "W", summary := "s", description := "",
         detection_reason := "r", user_feedback := Label.true_positive,
         confidence_score := 1, processed := false }]
    nextId := 2
    training := [] }

/-- The spec's scenario: three false-positive feedbacks all containing the
token `access`. -/
def dbAccess : DB :=
  { feedback :=
      [{ rowid := 1, ticket_id := "P1", summary := "access alpha", description := "",
         detection_reason := "r", user_feedback := Label.false_positive,
         confidence_score := 0, processed := true },
       { rowid := 2, ticket_id := "P2", summary := "access beta", description := "",
         detection_reason := "r", user_feedback := Label.false_positive,
         confidence_score := 0, processed := true },
       { rowid := 3, ticket_id := "P3", summary := "access gamma", description := "",
         detection_reason := "r", user_feedback := Label.false_positive,
         confidence_score := 0, processed := true }]
    nextId := 4
    training := [] }

/-! # Theorems -/

/-- C10: for every body, a ticket with an empty (falsy) title is classified
`(False, 'no_summary')` without the body being examined. -/
theorem C10_empty_summary_short_circuits (d : Desc) :
    is_pixel_related_ticket "" d = (false, "no_summary") := rfl

/-- C10 witness: the empty-title short circuit at a body that contains an
exclusion term, a high-confidence phrase and the primary keyword. -/
theorem C10_witness :
    is_pixel_related_ticket "" (.str "user sync conversion pixel validation") =
      (false, "no_summary") :=
  C10_empty_summary_short_circuits (.str "user sync conversion pixel validation")

/-- C2: if the combined lowercased text contains an exclusion term, the
verdict is `False` with reason `excluded:<first matching exclusion in list
order>`, regardless of any positive-match content. -/
theorem C2_exclusions_take_precedence (summary : String) (d : Desc) (e : String)
    (hs : ¬ summary = "")
    (he : exclusions.find? (fun x => pyIn x (combinedText summary d)) = some e) :
    is_pixel_related_ticket summary d = (false, "excluded:" ++ e) := by
  unfold is_pixel_related_ticket
  rw [if_neg hs]
  simp only [he]

/-- C2 witness: a text containing both the exclusion `user sync` and the
high-confidence phrase `pixel validation` (and the keyword `pixel`) is
excluded. -/
theorem C2_witness :
    ¬ ("user sync pixel validation data" = "") ∧
    exclusions.find?
        (fun x => pyIn x (combinedText "user sync pixel validation data" (.str ""))) =
      some "user sync" ∧
    is_pixel_related_ticket "user sync pixel validation data" (.str "") =
      (false, "excluded:" ++ "user sync") :=
  ⟨by decide, rfl,
   C2_exclusions_take_precedence "user sync pixel validation data" (.str "")
     "user sync" (by decide) rfl⟩

/-- C1 counterexample: the rule engine emits `high:pixel validation` (with
a space) on a real high-confidence ticket, but the confidence table only
knows the underscored key, so this code falls to the 0.5 unknown-code
default instead of a calibrated value in 0.85–0.95. -/
theorem C1_counterexample :
    is_pixel_related_ticket "Ministry of Supply Pixel Validation Request" (.str "") =
      (true, "high:pixel validation") ∧
    estimate_rule_confidence "high:pixel validation" = 0.5 ∧
    ¬ ((0.85 : ℚ) ≤ estimate_rule_confidence "high:pixel validation") :=
  ⟨rfl, rfl, by show ¬ ((0.85 : ℚ) ≤ (0.5 : ℚ)); norm_num⟩

/-- C1 amended: the table recognizes both `medium:*` codes and exactly four
of the fifteen `pixel_context:*` codes at their calibrated values; every
`high:<phrase>` code the rule engine can emit and the remaining eleven
context codes fall to the 0.5 default. -/
theorem C1_amended_confidence_table :
    estimate_rule_confidence "medium:tracking_action" = 0.60 ∧
    estimate_rule_confidence "medium:conversion_web" = 0.70 ∧
    estimate_rule_confidence "pixel_context:firing" = 0.85 ∧
    estimate_rule_confidence "pixel_context:validation" = 0.85 ∧
    estimate_rule_confidence "pixel_context:setup" = 0.75 ∧
    estimate_rule_confidence "pixel_context:conversion" = 0.80 ∧
    (high_confidence_keywords.all fun p =>
      decide (estimate_rule_confidence ("high:" ++ p) = 0.5)) = true ∧
    pixel_contexts.filter
        (fun c => !(["firing", "validation", "setup", "conversion"].contains c)) =
      ["confirmation", "tracking", "website", "page", "code", "tag", "implement",
       "install", "not working", "0 conversions", "troubleshoot"] ∧
    ((pixel_contexts.filter fun c =>
        !(["firing", "validation", "setup", "conversion"].contains c)).all fun c =>
      decide (estimate_rule_confidence ("pixel_context:" ++ c) = 0.5)) = true := by
  refine ⟨rfl, rfl, rfl, rfl, rfl, rfl, ?_, rfl, ?_⟩
  · simp only [high_confidence_keywords, List.all_cons, List.all_nil,
      Bool.and_eq_true, decide_eq_true_eq, and_true]
    exact ⟨rfl, rfl, rfl, rfl, rfl, rfl, rfl, rfl, rfl⟩
  · rw [show pixel_contexts.filter
        (fun c => !(["firing", "validation", "setup", "conversion"].contains c)) =
      ["confirmation", "tracking", "website", "page", "code", "tag", "implement",
       "install", "not working", "0 conversions", "troubleshoot"] from rfl]
    simp only [List.all_cons, List.all_nil, Bool.and_eq_true, decide_eq_true_eq, and_true]
    exact ⟨rfl, rfl, rfl, rfl, rfl, rfl, rfl, rfl, rfl, rfl, rfl⟩

/-- C4: with no Statistical Model loaded, the fusion returns the rule
verdict and the rule confidence unchanged, with the rule-only method tag. -/
theorem C4_rule_only_fallback (summary description : String)
    (rule_based_result : Bool) (rule_confidence : ℚ) :
    hybrid_detection none summary description rule_based_result rule_confidence =
      (rule_based_result, rule_confidence, "rule_based_only") := rfl

/-- C4 witness: graceful degradation at a concrete input. -/
theorem C4_witness :
    hybrid_detection none "t" "b" true (9 / 10) = (true, 9 / 10, "rule_based_only") :=
  C4_rule_only_fallback "t" "b" true (9 / 10)

/-- Unfolding of `hybrid_detection` for a loaded model with a fixed
prediction. -/
theorem hybrid_detection_const (mp : Bool) (mc : ℚ) (s d : String) (rb : Bool) (rc : ℚ) :
    hybrid_detection (some ⟨fun _ _ => (mp, mc)⟩) s d rb rc =
      (decide (rc * (if 0.8 < mc then 0.4 else 0.6) +
          mc * (if 0.8 < mc then 0.6 else 0.4) > 0.5),
       rc * (if 0.8 < mc then 0.4 else 0.6) + mc * (if 0.8 < mc then 0.6 else 0.4),
       "hybrid") := rfl

/-- C3: with a model loaded, the combined confidence is the weighted
average `0.6/0.4` (or `0.4/0.6` once the model confidence exceeds `0.8`),
the final verdict is exactly `combined > 0.5`, and the combined confidence
stays within `[0, 1]` for inputs in `[0, 1]`. -/
theorem C3_hybrid_fusion (summary description : String) (rb mp : Bool) (rc mc : ℚ)
    (hrc0 : 0 ≤ rc) (hrc1 : rc ≤ 1) (hmc0 : 0 ≤ mc) (hmc1 : mc ≤ 1) :
    (mc ≤ 0.8 →
      (hybrid_detection (some ⟨fun _ _ => (mp, mc)⟩) summary description rb rc).2.1 =
        rc * 0.6 + mc * 0.4) ∧
    (0.8 < mc →
      (hybrid_detection (some ⟨fun _ _ => (mp, mc)⟩) summary description rb rc).2.1 =
        rc * 0.4 + mc * 0.6) ∧
    ((hybrid_detection (some ⟨fun _ _ => (mp, mc)⟩) summary description rb rc).1 = true ↔
      0.5 < (hybrid_detection (some ⟨fun _ _ => (mp, mc)⟩) summary description rb rc).2.1) ∧
    0 ≤ (hybrid_detection (some ⟨fun _ _ => (mp, mc)⟩) summary description rb rc).2.1 ∧
    (hybrid_detection (some ⟨fun _ _ => (mp, mc)⟩) summary description rb rc).2.1 ≤ 1 := by
  rw [hybrid_detection_const]
  rcases lt_or_le (0.8 : ℚ) mc with h | h
  · rw [if_pos h, if_pos h]
    refine ⟨fun hle => absurd h (not_lt.mpr hle), fun _ => rfl, decide_eq_true_iff, ?_, ?_⟩
    · show 0 ≤ rc * 0.4 + mc * 0.6
      nlinarith
    · show rc * 0.4 + mc * 0.6 ≤ 1
      nlinarith
  · rw [if_neg (not_lt.mpr h), if_neg (not_lt.mpr h)]
    refine ⟨fun _ => rfl, fun hlt => absurd hlt (not_lt.mpr h), decide_eq_true_iff, ?_, ?_⟩
    · show 0 ≤ rc * 0.6 + mc * 0.4
      nlinarith
    · show rc * 0.6 + mc * 0.4 ≤ 1
      nlinarith

/-- C3 witness: a confident model (`mc = 0.9 > 0.8`) at rule confidence
`0.5`: the combined score is `0.5·0.4 + 0.9·0.6 = 0.74` and the verdict is
`combined > 0.5 = True`. -/
theorem C3_witness :
    (0 ≤ (1 / 2 : ℚ)) ∧ ((1 / 2 : ℚ) ≤ 1) ∧ (0 ≤ (9 / 10 : ℚ)) ∧ ((9 / 10 : ℚ) ≤ 1) ∧
    (((9 / 10 : ℚ) ≤ 0.8 →
      (hybrid_detection (some ⟨fun _ _ => (true, 9 / 10)⟩) "t" "b" true (1 / 2)).2.1 =
        1 / 2 * 0.6 + 9 / 10 * 0.4) ∧
    (0.8 < (9 / 10 : ℚ) →
      (hybrid_detection (some ⟨fun _ _ => (true, 9 / 10)⟩) "t" "b" true (1 / 2)).2.1 =
        1 / 2 * 0.4 + 9 / 10 * 0.6) ∧
    ((hybrid_detection (some ⟨fun _ _ => (true, 9 / 10)⟩) "t" "b" true (1 / 2)).1 = true ↔
      0.5 < (hybrid_detection (some ⟨fun _ _ => (true, 9 / 10)⟩) "t" "b" true (1 / 2)).2.1) ∧
    0 ≤ (hybrid_detection (some ⟨fun _ _ => (true, 9 / 10)⟩) "t" "b" true (1 / 2)).2.1 ∧
    (hybrid_detection (some ⟨fun _ _ => (true, 9 / 10)⟩) "t" "b" true (1 / 2)).2.1 ≤ 1) :=
  ⟨by norm_num, by norm_num, by norm_num, by norm_num,
   C3_hybrid_fusion "t" "b" true true (1 / 2) (9 / 10)
     (by norm_num) (by norm_num) (by norm_num) (by norm_num)⟩

/-- C6 counterexample: two `record_feedback` calls for the same ticket id
leave two feedback rows for that id — the `INSERT OR REPLACE` has no
uniqueness constraint on `ticket_id` to conflict with, so it appends. -/
theorem C6_counterexample :
    ((record_feedback (record_feedback initDB "T-1" "a" "b" "r" Label.true_positive 1)
        "T-1" "a2" "b2" "r2" Label.false_positive 0).feedback.filter
      (fun r => r.ticket_id == "T-1")).length = 2 := rfl

/-- C6 amended: each `record_feedback` call appends one fresh feedback row
holding that call's values (latest values live in the last row); prior
rows for the same ticket id are retained, not replaced. -/
theorem C6_amended_append_per_call (tid s1 d1 r1 s2 d2 r2 : String) (l1 l2 : Label)
    (c1 c2 : ℚ) :
    (record_feedback (record_feedback initDB tid s1 d1 r1 l1 c1)
        tid s2 d2 r2 l2 c2).feedback =
      [{ rowid := 1, ticket_id := tid, summary := s1, description := d1,
         detection_reason := r1, user_feedback := l1, confidence_score := c1,
         processed := true },
       { rowid := 2, ticket_id := tid, summary := s2, description := d2,
         detection_reason := r2, user_feedback := l2, confidence_score := c2,
         processed := true }] := by
  simp [record_feedback, process_feedback_to_training_data, materializeRow,
    upsertTraining, markProcessed, initDB]

/-- C6 amended witness: the two appended rows at concrete values. -/
theorem C6_amended_witness :
    (record_feedback (record_feedback initDB "T-9" "a" "b" "r" Label.true_positive 1)
        "T-9" "a2" "b2" "r2" Label.false_negative 0).feedback =
      [{ rowid := 1, ticket_id := "T-9", summary := "a", description := "b",
         detection_reason := "r", user_feedback := Label.true_positive,
         confidence_score := 1, processed := true },
       { rowid := 2, ticket_id := "T-9", summary := "a2", description := "b2",
         detection_reason := "r2", user_feedback := Label.false_negative,
         confidence_score := 0, processed := true }] :=
  C6_amended_append_per_call "T-9" "a" "b" "r" "a2" "b2" "r2"
    Label.true_positive Label.false_negative 1 0

/-- The feedback table after a materialization pass is the original table
with the selected rowids marked, independently of the training updates. -/
theorem materialize_foldl_feedback (us : List FeedbackRow) (db : DB) :
    (us.foldl materializeRow db).feedback =
      us.foldl (fun fb u => markProcessed u.rowid fb) db.feedback := by
  induction us generalizing db with
  | nil => rfl
  | cons u us ih => exact ih (materializeRow db u)

/-- If every unprocessed row's rowid is among the marks, every row is
processed after marking. -/
theorem mark_foldl_processed (us : List FeedbackRow) :
    ∀ fb : List FeedbackRow,
      (∀ r ∈ fb, r.processed = false → ∃ u ∈ us, u.rowid = r.rowid) →
      ∀ r ∈ us.foldl (fun fb u => markProcessed u.rowid fb) fb, r.processed = true := by
  induction us with
  | nil =>
    intro fb h r hr
    cases hrp : r.processed with
    | true => rfl
    | false =>
      rcases h r hr hrp with ⟨u, hu, _⟩
      exact absurd hu (List.not_mem_nil u)
  | cons u us ih =>
    intro fb h r hr
    refine ih (markProcessed u.rowid fb) ?_ r hr
    intro r' hr' hrp'
    rcases List.mem_map.mp hr' with ⟨r0, hr0, heq⟩
    by_cases hid : r0.rowid = u.rowid
    · rw [if_pos hid] at heq
      rw [← heq] at hrp'
      simp at hrp'
    · rw [if_neg hid] at heq
      subst heq
      rcases h r0 hr0 hrp' with ⟨v, hv, hvid⟩
      rcases List.mem_cons.mp hv with rfl | hv'
      · exact absurd hvid.symm hid
      · exact ⟨v, hv', hvid⟩

/-- After a materialization pass, every feedback row is processed. -/
theorem processed_after_pass (db : DB) :
    ∀ r ∈ (process_feedback_to_training_data db).feedback, r.processed = true := by
  intro r hr
  rw [process_feedback_to_training_data, materialize_foldl_feedback] at hr
  refine mark_foldl_processed _ db.feedback ?_ r hr
  intro r' hr' hrp'
  exact ⟨r', List.mem_filter.mpr ⟨hr', by simp [hrp']⟩, rfl⟩

/-- C7: the materialization pass consumes only unprocessed rows and marks
every row it converts in the same pass: afterwards all feedback rows are
processed and a second pass is the identity, so no row is ever
re-materialized (the pass itself is one atomic state transition, so no row
is left half-processed). -/
theorem C7_materialize_exactly_once (db : DB) :
    ((process_feedback_to_training_data db).feedback.all fun r => r.processed) = true ∧
    process_feedback_to_training_data (process_feedback_to_training_data db) =
      process_feedback_to_training_data db := by
  have hall : ∀ r ∈ (process_feedback_to_training_data db).feedback, r.processed = true :=
    processed_after_pass db
  constructor
  · exact List.all_eq_true.mpr fun r hr => hall r hr
  · have hfil : (process_feedback_to_training_data db).feedback.filter
        (fun r => !r.processed) = [] := by
      rw [List.filter_eq_nil_iff]
      intro r hr
      simp [hall r hr]
    conv_lhs => rw [process_feedback_to_training_data, hfil]
    rfl

/-- C7 witness: a store with one unprocessed row is fully processed by one
pass, and a second pass changes nothing. -/
theorem C7_witness :
    ((process_feedback_to_training_data dbOneUnprocessed).feedback.all
      fun r => r.processed) = true ∧
    process_feedback_to_training_data (process_feedback_to_training_data dbOneUnprocessed) =
      process_feedback_to_training_data dbOneUnprocessed :=
  C7_materialize_exactly_once dbOneUnprocessed

/-- Membership through stable insertion. -/
theorem mem_insertDesc {p q : String × Nat} {l : List (String × Nat)} :
    p ∈ insertDesc q l ↔ p = q ∨ p ∈ l := by
  induction l with
  | nil => simp [insertDesc]
  | cons r rest ih =>
    by_cases h : r.2 ≤ q.2
    · simp [insertDesc, h]
    · simp only [insertDesc, h, if_false, List.mem_cons, ih]
      tauto

/-- The stable descending sort permutes its input, so membership agrees. -/
theorem mem_sortDesc {p : String × Nat} {l : List (String × Nat)} :
    p ∈ sortDesc l ↔ p ∈ l := by
  induction l with
  | nil => simp [sortDesc]
  | cons q rest ih => simp [sortDesc, mem_insertDesc, ih]

/-- A token has an entry in the accumulator exactly when the `any` probe
of `bump` fires. -/
theorem any_key_iff {acc : List (String × Nat)} {t : String} :
    (acc.any fun q => q.1 == t) = true ↔ t ∈ acc.map Prod.fst := by
  rw [List.any_eq_true]
  constructor
  · rintro ⟨q, hq, hqt⟩
    exact List.mem_map.mpr ⟨q, hq, eq_of_beq hqt⟩
  · intro hmem
    rcases List.mem_map.mp hmem with ⟨q, hq, rfl⟩
    exact ⟨q, hq, by simp⟩

/-- Bumping an existing key leaves the key list unchanged. -/
theorem bump_fst_of_any (acc : List (String × Nat)) (t : String)
    (hany : (acc.any fun q => q.1 == t) = true) :
    (bump acc t).map Prod.fst = acc.map Prod.fst := by
  unfold bump
  rw [if_pos hany, List.map_map]
  refine List.map_congr_left ?_
  intro q _
  show (if q.1 == t then (q.1, q.2 + 1) else q).1 = q.1
  split <;> rfl

/-- Appending a fresh key extends the key list by that key. -/
theorem bump_fst_of_not_any (acc : List (String × Nat)) (t : String)
    (hany : ¬ (acc.any fun q => q.1 == t) = true) :
    (bump acc t).map Prod.fst = acc.map Prod.fst ++ [t] := by
  unfold bump
  rw [if_neg hany, List.map_append]
  rfl

/-- Counting a different element in a singleton gives zero. -/
theorem count_singleton_ne {u t : String} (h : ¬ u = t) : List.count u [t] = 0 := by
  rw [List.count_singleton', if_neg fun h2 => h h2.symm]

/-- The `Counter` fold invariant: provided the accumulator's entries carry
the counts of a base token list and every token counted by the base has an
entry, the final entries carry the counts of the base extended by the
folded tokens. -/
theorem tokenCounts_foldl_count (toks : List String) :
    ∀ (acc : List (String × Nat)) (base : List String),
      (∀ p ∈ acc, p.2 = List.count p.1 base) →
      (∀ t, 0 < List.count t base → t ∈ acc.map Prod.fst) →
      ∀ p ∈ toks.foldl bump acc, p.2 = List.count p.1 (base ++ toks) := by
  induction toks with
  | nil =>
    intro acc base h1 _ p hp
    simpa using h1 p hp
  | cons t ts ih =>
    intro acc base h1 h3 p hp
    have h1' : ∀ q ∈ bump acc t, q.2 = List.count q.1 (base ++ [t]) := by
      unfold bump
      by_cases hany : (acc.any fun q => q.1 == t) = true
      · rw [if_pos hany]
        intro q hq
        rcases List.mem_map.mp hq with ⟨q0, hq0, heq⟩
        have h10 := h1 q0 hq0
        rw [List.count_append]
        split at heq
        · rename_i hc
          subst heq
          show q0.2 + 1 = List.count q0.1 base + List.count q0.1 [t]
          have hq0t : q0.1 = t := eq_of_beq hc
          rw [hq0t] at h10 ⊢
          rw [List.count_singleton', if_pos rfl, h10]
        · rename_i hc
          subst heq
          have hqt : ¬ q0.1 = t := fun h2 => hc (by simp [h2])
          rw [count_singleton_ne hqt, Nat.add_zero]
          exact h10
      · rw [if_neg hany]
        intro q hq
        rcases List.mem_append.mp hq with hq2 | hq2
        · have hqt : ¬ q.1 = t := by
            intro h2
            exact hany (any_key_iff.mpr (h2 ▸ List.mem_map.mpr ⟨q, hq2, rfl⟩))
          rw [List.count_append, count_singleton_ne hqt, Nat.add_zero]
          exact h1 q hq2
        · have hq3 : q = (t, 1) := by simpa using hq2
          subst hq3
          have hz : List.count t base = 0 := by
            by_contra hnz
            exact hany (any_key_iff.mpr (h3 t (Nat.pos_of_ne_zero hnz)))
          show (1 : Nat) = List.count t (base ++ [t])
          rw [List.count_append, hz, List.count_singleton', if_pos rfl]
    have h3' : ∀ u, 0 < List.count u (base ++ [t]) → u ∈ (bump acc t).map Prod.fst := by
      intro u hu
      by_cases hut : u = t
      · subst hut
        by_cases hany : (acc.any fun q => q.1 == u) = true
        · rw [bump_fst_of_any acc u hany]
          exact any_key_iff.mp hany
        · rw [bump_fst_of_not_any acc u hany]
          exact List.mem_append_right _ (by simp)
      · rw [List.count_append, count_singleton_ne hut, Nat.add_zero] at hu
        have hmem := h3 u hu
        by_cases hany : (acc.any fun q => q.1 == t) = true
        · rw [bump_fst_of_any acc t hany]
          exact hmem
        · rw [bump_fst_of_not_any acc t hany]
          exact List.mem_append_left _ hmem
    have hres := ih (bump acc t) (base ++ [t]) h1' h3' p hp
    simpa [List.append_assoc] using hres

/-- Every `(token, count)` entry of the Counter carries the token's true
occurrence count. -/
theorem tokenCounts_count (toks : List String) :
    ∀ p ∈ tokenCounts toks, p.2 = toks.count p.1 := by
  intro p hp
  simpa using tokenCounts_foldl_count toks [] [] (by simp) (by simp) p hp

/-- Soundness of the suggestion lists: every suggested token occurs at
least twice among the analyzed tokens. -/
theorem suggested_sound (toks : List String) :
    ∀ t ∈ ((most_common 5 (tokenCounts toks)).filter (fun p => 2 ≤ p.2)).map Prod.fst,
      2 ≤ toks.count t := by
  intro t ht
  rcases List.mem_map.mp ht with ⟨p, hp, rfl⟩
  rcases List.mem_filter.mp hp with ⟨hp5, hge⟩
  have hmem : p ∈ tokenCounts toks := mem_sortDesc.mp (List.take_subset _ _ hp5)
  have hcount := tokenCounts_count toks p hmem
  rw [← hcount]
  exact of_decide_eq_true hge

/-- C8 counterexample: with two false positives whose texts are
`"a b c d e f"`, the token `f` occurs twice yet is not suggested — the
source filters `most_common(5)` before applying the `≥ 2` threshold, so a
sixth qualifying token is dropped. -/
theorem C8_counterexample :
    List.count "f" (fpTokens dbSixTokens) = 2 ∧
    "f" ∉ (analyze_patterns dbSixTokens).suggested_exclusions := by
  exact ⟨rfl, by decide⟩

/-- C8 amended: `suggested_exclusions` (resp. `suggested_keywords`) is the
`count ≥ 2` filter of only the five most frequent false-positive (resp.
false-negative) tokens — so every suggested token does occur at least
twice and at most five are suggested — and on the spec's scenario of three
false positives all containing `access`, `access` is suggested. -/
theorem C8_amended_suggestions (db : DB) :
    ((analyze_patterns db).suggested_exclusions.all fun t =>
      decide (2 ≤ List.count t (fpTokens db))) = true ∧
    ((analyze_patterns db).suggested_keywords.all fun t =>
      decide (2 ≤ List.count t (fnTokens db))) = true ∧
    (analyze_patterns db).suggested_exclusions.length ≤ 5 ∧
    (analyze_patterns dbAccess).suggested_exclusions = ["access"] := by
  refine ⟨?_, ?_, ?_, rfl⟩
  · exact List.all_eq_true.mpr fun t ht =>
      decide_eq_true (suggested_sound (fpTokens db) t ht)
  · exact List.all_eq_true.mpr fun t ht =>
      decide_eq_true (suggested_sound (fnTokens db) t ht)
  · show (((most_common 5 (tokenCounts (fpTokens db))).filter
        (fun p => 2 ≤ p.2)).map Prod.fst).length ≤ 5
    rw [List.length_map]
    calc ((most_common 5 (tokenCounts (fpTokens db))).filter (fun p => 2 ≤ p.2)).length
        ≤ (most_common 5 (tokenCounts (fpTokens db))).length :=
          List.length_filter_le _ _
      _ ≤ 5 := by
          rw [most_common, List.length_take]
          exact Nat.min_le_left _ _

/-- C8 amended witness: the suggestion soundness bound instantiated at the
`access` scenario store. -/
theorem C8_amended_witness :
    ((analyze_patterns dbAccess).suggested_exclusions.all fun t =>
      decide (2 ≤ List.count t (fpTokens dbAccess))) = true ∧
    ((analyze_patterns dbAccess).suggested_keywords.all fun t =>
      decide (2 ≤ List.count t (fnTokens dbAccess))) = true ∧
    (analyze_patterns dbAccess).suggested_exclusions.length ≤ 5 ∧
    (analyze_patterns dbAccess).suggested_exclusions = ["access"] :=
  C8_amended_suggestions dbAccess

/-- Dropping spaces distributes over string concatenation. -/
theorem dropSpaces_append (a b : String) :
    dropSpaces (a ++ b) = dropSpaces a ++ dropSpaces b := by
  show (a ++ b).data.filter (fun c => !(c == ' ')) = _
  rw [String.data_append, List.filter_append]
  rfl

/-- Dropping spaces turns the space-joined parts into the concatenation of
the parts' non-space characters. -/
theorem dropSpaces_joinSpace : ∀ xs : List String,
    dropSpaces (joinSpace xs) = ((xs.map dropSpaces).flatten) := by
  intro xs
  induction xs with
  | nil => rfl
  | cons x xs ih =>
    cases xs with
    | nil => simp [joinSpace, dropSpaces]
    | cons y ys =>
      rw [joinSpace, dropSpaces_append, dropSpaces_append, ih]
      have hsp : dropSpaces " " = [] := rfl
      simp [hsp]

mutual
/-- The normalizer returns exactly the textual content of the tree, in
document order, up to the space separators it inserts. -/
theorem extract_content : ∀ t : Rich,
    dropSpaces (extract_text_from_rich_format t) = ((flatLeaves t).map dropSpaces).flatten
  | .str s => by simp [extract_text_from_rich_format, flatLeaves]
  | .dict (some items) txt => by
    rw [show extract_text_from_rich_format (.dict (some items) txt) =
      joinSpace (extract_parts items) from rfl]
    rw [dropSpaces_joinSpace]
    rw [show flatLeaves (.dict (some items) txt) = flatLeavesL items from rfl]
    exact extract_content_parts items
  | .dict none (some s) => by simp [extract_text_from_rich_format, flatLeaves, joinSpace]
  | .dict none none => rfl
  | .list items => by
    rw [show extract_text_from_rich_format (.list items) =
      joinSpace (extract_parts items) from rfl]
    rw [dropSpaces_joinSpace]
    rw [show flatLeaves (.list items) = flatLeavesL items from rfl]
    exact extract_content_parts items
  | .other rendered => by simp [extract_text_from_rich_format, flatLeaves]
/-- The list version of `extract_content`. -/
theorem extract_content_parts : ∀ l : RichL,
    ((extract_parts l).map dropSpaces).flatten = ((flatLeavesL l).map dropSpaces).flatten
  | .nil => rfl
  | .cons x xs => by
    rw [show extract_parts (.cons x xs) =
      extract_text_from_rich_format x :: extract_parts xs from rfl]
    rw [show flatLeavesL (.cons x xs) = flatLeaves x ++ flatLeavesL xs from rfl]
    rw [List.map_cons, List.flatten_cons, extract_content x, extract_content_parts xs]
    rw [List.map_append, List.flatten_append]
end

/-- C9: the Text Normalizer is a total function on arbitrarily nested
rich-text trees (it is defined by structural recursion, so it terminates
and cannot raise), its output carries exactly the textual content in
document order (up to the space separators it inserts), and a missing or
empty description contributes the empty string to classification. -/
theorem C9_normalizer_total :
    (∀ t : Rich, dropSpaces (extract_text_from_rich_format t) =
      ((flatLeaves t).map dropSpaces).flatten) ∧
    descText (Desc.str "") = "" ∧
    descText (Desc.doc none none) = "" ∧
    descText (Desc.other "None" false) = "" :=
  ⟨extract_content, rfl, rfl, rfl⟩

/-- Filtering an upserted training table by the upserted ticket id yields
exactly the new row. -/
theorem filter_upsert (t : TrainingRow) (rows : List TrainingRow) (tid : String)
    (h : t.ticket_id = tid) :
    (upsertTraining t rows).filter (fun r => r.ticket_id == tid) = [t] := by
  unfold upsertTraining
  rw [List.filter_append]
  have h1 : (rows.filter (fun r => !(r.ticket_id == t.ticket_id))).filter
      (fun r => r.ticket_id == tid) = [] := by
    rw [List.filter_eq_nil_iff]
    intro r hr
    rcases List.mem_filter.mp hr with ⟨_, hne⟩
    subst h
    simpa using hne
  rw [h1, List.nil_append]
  subst h
  simp

/-- Recording one feedback on a fully materialized store: the training
rows for its ticket id collapse to the example derived from that call. -/
theorem record_feedback_training_filter (db : DB) (tid s d r0 : String) (l : Label)
    (c : ℚ) (hall : ∀ r ∈ db.feedback, r.processed = true) :
    (record_feedback db tid s d r0 l c).training.filter (fun r => r.ticket_id == tid) =
      [{ ticket_id := tid, summary := s, description := d,
         is_pixel_related := decide (l = Label.true_positive),
         features := extract_features s d }] := by
  have hfil : (db.feedback ++
      [({ rowid := db.nextId, ticket_id := tid, summary := s, description := d,
          detection_reason := r0, user_feedback := l, confidence_score := c,
          processed := false } : FeedbackRow)]).filter (fun r => !r.processed) =
      [({ rowid := db.nextId, ticket_id := tid, summary := s, description := d,
          detection_reason := r0, user_feedback := l, confidence_score := c,
          processed := false } : FeedbackRow)] := by
    rw [List.filter_append, List.filter_eq_nil_iff.mpr fun r hr => by simp [hall r hr]]
    rfl
  show (List.foldl materializeRow
      { db with
        feedback := db.feedback ++
          [({ rowid := db.nextId, ticket_id := tid, summary := s, description := d,
              detection_reason := r0, user_feedback := l, confidence_score := c,
              processed := false } : FeedbackRow)]
        nextId := db.nextId + 1 }
      ((db.feedback ++
        [({ rowid := db.nextId, ticket_id := tid, summary := s, description := d,
            detection_reason := r0, user_feedback := l, confidence_score := c,
            processed := false } : FeedbackRow)]).filter
        (fun r => !r.processed))).training.filter (fun r => r.ticket_id == tid) =
    [{ ticket_id := tid, summary := s, description := d,
       is_pixel_related := decide (l = Label.true_positive),
       features := extract_features s d }]
  rw [hfil]
  show (upsertTraining
      (toTrainingRow
        { rowid := db.nextId, ticket_id := tid, summary := s, description := d,
          detection_reason := r0, user_feedback := l, confidence_score := c,
          processed := false })
      db.training).filter (fun r => r.ticket_id == tid) =
    [{ ticket_id := tid, summary := s, description := d,
       is_pixel_related := decide (l = Label.true_positive),
       features := extract_features s d }]
  exact filter_upsert _ _ _ rfl

/-- C5: from any store state, recording feedback twice for the same
ticket id and materializing leaves exactly one training example for that
id, labelled by the most recent feedback (`True` iff it was
`true_positive`). -/
theorem C5_latest_feedback_wins (db : DB) (tid s1 d1 r1 s2 d2 r2 : String)
    (l1 l2 : Label) (c1 c2 : ℚ) :
    (record_feedback (record_feedback db tid s1 d1 r1 l1 c1)
        tid s2 d2 r2 l2 c2).training.filter (fun r => r.ticket_id == tid) =
      [{ ticket_id := tid, summary := s2, description := d2,
         is_pixel_related := decide (l2 = Label.true_positive),
         features := extract_features s2 d2 }] := by
  have hall : ∀ r ∈ (record_feedback db tid s1 d1 r1 l1 c1).feedback,
      r.processed = true := by
    simp only [record_feedback]
    exact processed_after_pass _
  exact record_feedback_training_filter _ tid s2 d2 r2 l2 c2 hall

/-- C5 witness: a `true_positive` overwritten by a `false_positive` leaves
one training example labelled `False`. -/
theorem C5_witness :
    (record_feedback (record_feedback initDB "PS-1" "s1" "d1" "r1"
        Label.true_positive 1) "PS-1" "s2" "d2" "r2"
        Label.false_positive 0).training.filter (fun r => r.ticket_id == "PS-1") =
      [{ ticket_id := "PS-1", summary := "s2", description := "d2",
         is_pixel_related := false, features := extract_features "s2" "d2" }] :=
  C5_latest_feedback_wins initDB "PS-1" "s1" "d1" "r1" "s2" "d2" "r2"
    Label.true_positive Label.false_positive 1 0
